import Mathlib

/-!
Shallow embedding of `pygame_menu/_widgetmanager.py` (class `WidgetManager`):
the widget attribute-resolution and registration pipeline.

Python values appearing in the optional-keyword mappings are modelled by
`PyVal`.  Tuples are restricted to tuples of scalars (`PyAtom`), which covers
every value the resolver inspects (colors, inflate vectors, margins, paddings);
the resolver never nests tuples.  Python `dict` kwargs are modelled as
association lists with `dict.pop(key, default)` semantics (`popv`/`eraseKey`).
Objects that the module only passes around opaquely (images, selection-effect
instances, callables) are modelled by tagged identifiers.
-/

/-- Scalar members of python tuples handled by the widget manager. -/
inductive PyAtom where
  | aint (n : Int)
  | afloat (n : Int)
  | astr (s : String)
deriving DecidableEq, Repr

/-- Python values that flow through the widget-manager kwargs. `float` carries
an opaque integer tag: no float arithmetic is performed by the code under
study, only `isinstance` checks and comparisons with zero. `image` models a
`pygame_menu.BaseImage` instance, `sel` a `Selection` instance and `noneSel`
a freshly constructed `NoneSelection()`. -/
inductive PyVal where
  | none
  | bool (b : Bool)
  | int (n : Int)
  | float (n : Int)
  | str (s : String)
  | path (s : String)
  | image (n : Nat)
  | sel (n : Nat)
  | noneSel
  | tuple (xs : List PyAtom)
deriving DecidableEq, Repr

namespace PyVal

/-- `isinstance(v, str)`. -/
def isStr : PyVal → Bool
  | .str _ => true
  | _ => false

/-- `isinstance(v, bool)`. -/
def isBool : PyVal → Bool
  | .bool _ => true
  | _ => false

/-- `isinstance(v, int)` (python `bool` is an `int` subtype, but the widget
manager never feeds a bool where an int is validated, and the asserts in the
source treat them separately; we keep them distinct). -/
def isInt : PyVal → Bool
  | .int _ => true
  | _ => false

/-- `isinstance(v, float)`. -/
def isFloat : PyVal → Bool
  | .float _ => true
  | _ => false

/-- `isinstance(v, tuple)`. -/
def isTuple : PyVal → Bool
  | .tuple _ => true
  | _ => false

/-- `isinstance(v, Path)`. -/
def isPath : PyVal → Bool
  | .path _ => true
  | _ => false

/-- `len(v)` for tuples (`0` elsewhere; the source only takes `len` after an
`isinstance(v, tuple)` check). -/
def tupleLen : PyVal → Nat
  | .tuple xs => xs.length
  | _ => 0

/-- `isinstance(v, pygame_menu.BaseImage)`. -/
def isImage : PyVal → Bool
  | .image _ => true
  | _ => false

/-- `isinstance(v, pygame_menu.widgets.core.Selection)`. -/
def isSelection : PyVal → Bool
  | .sel _ => true
  | .noneSel => true
  | _ => false

/-- `str(v)` restricted to the `(str, Path)` arguments accepted for
`font_name`: a `Path` renders as its string form. -/
def pyStr : PyVal → PyVal
  | .path s => .str s
  | v => v

/-- Value is an `int` that is `≥ b`. -/
def isIntGe (v : PyVal) (b : Int) : Bool :=
  match v with
  | .int n => b ≤ n
  | _ => false

/-- Value is an `int` or a `float` (a "number"). -/
def isNum : PyVal → Bool
  | .int _ => true
  | .float _ => true
  | _ => false

end PyVal

/-- A numeric scalar atom (`int` or `float`). -/
def PyAtom.isNumAtom : PyAtom → Bool
  | .aint _ => true
  | .afloat _ => true
  | _ => false

/-- A numeric scalar atom that is `≥ 0`. -/
def PyAtom.isNumNonneg : PyAtom → Bool
  | .aint n => 0 ≤ n
  | .afloat n => 0 ≤ n
  | _ => false

/-- An `int` atom that is `≥ 0`. -/
def PyAtom.isIntNonneg : PyAtom → Bool
  | .aint n => 0 ≤ n
  | _ => false

/-- An `int` atom within `[0, 255]`: a well-formed color channel. -/
def PyAtom.isChannel : PyAtom → Bool
  | .aint n => 0 ≤ n && n ≤ 255
  | _ => false

/-- Modelled from the spec: `pygame_menu.utils.assert_color` (the `_utils`
module is not part of the sources under study).  "Colors must be well-formed
color values": a 3- or 4-tuple of integer channels in `[0, 255]`. -/
def isColor : PyVal → Bool
  | .tuple xs => (xs.length = 3 || xs.length = 4) && xs.all PyAtom.isChannel
  | _ => false

/-- Modelled from the spec: `pygame_menu.utils.assert_vector(v, 2)` (the
`_utils` module is not part of the sources under study).  A 2-element tuple of
numeric components. -/
def isVector2 : PyVal → Bool
  | .tuple xs => xs.length = 2 && xs.all PyAtom.isNumAtom
  | _ => false

/-- All components of a tuple are non-negative numbers. -/
def tupleAllNonneg : PyVal → Bool
  | .tuple xs => xs.all PyAtom.isNumNonneg
  | _ => false

/-- All components of a tuple are non-negative integers. -/
def tupleAllIntNonneg : PyVal → Bool
  | .tuple xs => xs.all PyAtom.isIntNonneg
  | _ => false

/-- The `background_color` validation in `_filter_widget_attributes`:
`None` and `BaseImage` values pass untouched, anything else must be a
well-formed color. -/
def bgValid (v : PyVal) : Bool :=
  v == PyVal.none || v.isImage || isColor v

/-- `background_is_color` as computed by `_filter_widget_attributes` once the
validation passed: the background is a flat color exactly when it is neither
`None` nor an image. -/
def bgIsColor (v : PyVal) : Bool :=
  !(v == PyVal.none) && !v.isImage

/-- Optional-keyword mapping (`**kwargs`), modelled as an association list. -/
def Kwargs := List (String × PyVal)
deriving DecidableEq, Repr

instance : Append Kwargs := ⟨List.append⟩

/-- Mapping lookup (python `kwargs[k]` / membership). -/
def kwLookup : Kwargs → String → Option PyVal
  | [], _ => Option.none
  | (k0, v) :: t, k => if k0 == k then some v else kwLookup t k

/-- `kwargs.pop(k, d)`: the stored value when the key is present, else the
default. -/
def popv (kw : Kwargs) (k : String) (d : PyVal) : PyVal :=
  match kwLookup kw k with
  | some v => v
  | Option.none => d

/-- The mapping after `kwargs.pop(k, _)`: the binding of `k` is removed. -/
def Kwargs.eraseKey : Kwargs → String → Kwargs
  | [], _ => []
  | (k0, v) :: t, k => if k0 == k then Kwargs.eraseKey t k else (k0, v) :: Kwargs.eraseKey t k

/-- The mapping contains the key. -/
def Kwargs.hasKey (kw : Kwargs) (k : String) : Bool :=
  (kwLookup kw k).isSome

/-- `pygame_menu.themes.Theme`, restricted to the fields the widget manager
reads.  A passive record of default styling values. -/
structure Theme where
  widget_alignment : PyVal
  widget_background_color : PyVal
  widget_background_inflate : PyVal
  widget_border_color : PyVal
  widget_border_inflate : PyVal
  widget_border_width : PyVal
  widget_font_antialias : Bool
  widget_font_background_color : PyVal
  widget_font_background_color_from_menu : Bool
  background_color : PyVal
  widget_font_color : PyVal
  widget_font : PyVal
  widget_font_size : PyVal
  widget_margin : PyVal
  widget_padding : PyVal
  readonly_color : PyVal
  readonly_selected_color : PyVal
  selection_color : PyVal
  widget_selection_effect : PyVal
  widget_shadow : PyVal
  widget_shadow_color : PyVal
  widget_shadow_position : PyVal
  widget_shadow_offset : PyVal
deriving DecidableEq, Repr

/-- The validated attribute bundle built by `_filter_widget_attributes`. -/
structure Attributes where
  align : PyVal
  background_color : PyVal
  background_inflate : PyVal
  border_color : PyVal
  border_inflate : PyVal
  border_width : PyVal
  font_antialias : Bool
  font_background_color : PyVal
  font_color : PyVal
  font_name : PyVal
  font_size : PyVal
  margin : PyVal
  padding : PyVal
  readonly_color : PyVal
  readonly_selected_color : PyVal
  selection_color : PyVal
  selection_effect : PyVal
  shadow : PyVal
  shadow_color : PyVal
  shadow_position : PyVal
  shadow_offset : PyVal
deriving DecidableEq, Repr

/-- A python `assert`: succeed when the condition holds, raise otherwise. -/
def need (ok : Bool) (msg : String) : Except String Unit :=
  if ok then .ok () else .error msg

/-- `WidgetManager._filter_widget_attributes(kwargs)`: pops every recognized
style key from the mapping (falling back to the theme default), validates it,
and builds the attribute bundle.  A failed `assert` / `assert_color` raises:
modelled as `Except.error` via `need`.  Python `dict.pop` is modelled by
`popv` (value-or-default) and `Kwargs.eraseKey` (mapping after removal). -/
def filterWidgetAttributes (thm : Theme) (kw0 : Kwargs) :
    Except String (Attributes × Kwargs) :=
  let align := popv kw0 "align" thm.widget_alignment
  let kw1 := kw0.eraseKey "align"
  (need align.isStr "align must be a string").bind fun _ =>
  let background_color := popv kw1 "background_color" thm.widget_background_color
  let kw2 := kw1.eraseKey "background_color"
  (need (bgValid background_color) "invalid color background_color").bind fun _ =>
  let background_is_color := bgIsColor background_color
  let background_inflate := popv kw2 "background_inflate" thm.widget_background_inflate
  let kw3 := kw2.eraseKey "background_inflate"
  (need (isVector2 background_inflate) "background_inflate must be a 2-component vector").bind fun _ =>
  (need (tupleAllNonneg background_inflate)
    "both background inflate components must be equal or greater than zero").bind fun _ =>
  let border_color := popv kw3 "border_color" thm.widget_border_color
  let kw4 := kw3.eraseKey "border_color"
  (need (isColor border_color) "invalid color border_color").bind fun _ =>
  let border_inflate := popv kw4 "border_inflate" thm.widget_border_inflate
  let kw5 := kw4.eraseKey "border_inflate"
  (need (isVector2 border_inflate) "border_inflate must be a 2-component vector").bind fun _ =>
  (need (tupleAllIntNonneg border_inflate) "border inflate components must be non-negative ints").bind fun _ =>
  let border_width := popv kw5 "border_width" thm.widget_border_width
  let kw6 := kw5.eraseKey "border_width"
  (need (border_width.isIntGe 0) "border_width must be a non-negative int").bind fun _ =>
  let font_background_color := popv kw6 "font_background_color" thm.widget_font_background_color
  let kw7 := kw6.eraseKey "font_background_color"
  -- special rule: derive the font background from the menu background when the
  -- resolved value is None, the theme flag is set and the widget background is
  -- not itself a flat color; only applies when the theme background is a tuple
  let derive := font_background_color == PyVal.none &&
    thm.widget_font_background_color_from_menu && !background_is_color &&
    thm.background_color.isTuple
  (need (!(derive && !isColor thm.background_color)) "invalid color theme background_color").bind fun _ =>
  let font_background_color := if derive then thm.background_color else font_background_color
  let font_color := popv kw7 "font_color" thm.widget_font_color
  let kw8 := kw7.eraseKey "font_color"
  (need (isColor font_color) "invalid color font_color").bind fun _ =>
  let font_name := popv kw8 "font_name" thm.widget_font
  let kw9 := kw8.eraseKey "font_name"
  (need (font_name.isStr || font_name.isPath) "font_name must be str or Path").bind fun _ =>
  let font_size := popv kw9 "font_size" thm.widget_font_size
  let kw10 := kw9.eraseKey "font_size"
  (need (font_size.isIntGe 1) "font size must be greater than zero").bind fun _ =>
  let margin := popv kw10 "margin" thm.widget_margin
  let kw11 := kw10.eraseKey "margin"
  (need margin.isTuple "margin must be a tuple").bind fun _ =>
  (need (margin.tupleLen == 2) "margin must be a tuple or list of 2 numbers").bind fun _ =>
  let padding := popv kw11 "padding" thm.widget_padding
  let kw12 := kw11.eraseKey "padding"
  (need (padding.isInt || padding.isFloat || padding.isTuple)
    "padding must be int, float or tuple").bind fun _ =>
  let readonly_color := popv kw12 "readonly_color" thm.readonly_color
  let kw13 := kw12.eraseKey "readonly_color"
  (need (isColor readonly_color) "invalid color readonly_color").bind fun _ =>
  let readonly_selected_color := popv kw13 "readonly_selected_color" thm.readonly_selected_color
  let kw14 := kw13.eraseKey "readonly_selected_color"
  (need (isColor readonly_selected_color) "invalid color readonly_selected_color").bind fun _ =>
  let selection_color := popv kw14 "selection_color" thm.selection_color
  let kw15 := kw14.eraseKey "selection_color"
  (need (isColor selection_color) "invalid color selection_color").bind fun _ =>
  let selection_effect := popv kw15 "selection_effect" thm.widget_selection_effect
  let kw16 := kw15.eraseKey "selection_effect"
  let selection_effect := if selection_effect == PyVal.none then PyVal.noneSel else selection_effect
  (need selection_effect.isSelection "selection_effect must be a Selection").bind fun _ =>
  let shadow := popv kw16 "shadow" thm.widget_shadow
  let kw17 := kw16.eraseKey "shadow"
  (need shadow.isBool "shadow must be bool").bind fun _ =>
  let shadow_color := popv kw17 "shadow_color" thm.widget_shadow_color
  let kw18 := kw17.eraseKey "shadow_color"
  (need (isColor shadow_color) "invalid color shadow_color").bind fun _ =>
  let shadow_position := popv kw18 "shadow_position" thm.widget_shadow_position
  let kw19 := kw18.eraseKey "shadow_position"
  (need shadow_position.isStr "shadow_position must be str").bind fun _ =>
  let shadow_offset := popv kw19 "shadow_offset" thm.widget_shadow_offset
  let kw20 := kw19.eraseKey "shadow_offset"
  (need shadow_offset.isNum "shadow_offset must be int or float").bind fun _ =>
  .ok ({ align := align
         background_color := background_color
         background_inflate := background_inflate
         border_color := border_color
         border_inflate := border_inflate
         border_width := border_width
         font_antialias := thm.widget_font_antialias
         font_background_color := font_background_color
         font_color := font_color
         font_name := font_name.pyStr
         font_size := font_size
         margin := margin
         padding := padding
         readonly_color := readonly_color
         readonly_selected_color := readonly_selected_color
         selection_color := selection_color
         selection_effect := selection_effect
         shadow := shadow
         shadow_color := shadow_color
         shadow_position := shadow_position
         shadow_offset := shadow_offset }, kw20)


/-- `WidgetManager._check_kwargs(kwargs)`: raises `ValueError` naming the
first remaining key; succeeds only on the empty mapping. -/
def checkKwargs : Kwargs → Except String Unit
  | [] => .ok ()
  | (k, _) :: _ =>
      .error ("widget addition optional parameter kwargs." ++ k ++ " is not valid")

/-- The style keys consumed (popped) by `_filter_widget_attributes`.
(`font_antialias` is part of the bundle but is never read from the kwargs,
so it is not a key.) -/
inductive StyleKey where
  | align | background_color | background_inflate | border_color | border_inflate
  | border_width | font_background_color | font_color | font_name | font_size
  | margin | padding | readonly_color | readonly_selected_color | selection_color
  | selection_effect | shadow | shadow_color | shadow_position | shadow_offset
deriving DecidableEq, Repr

/-- The kwargs key string of a style key. -/
def StyleKey.name : StyleKey → String
  | .align => "align"
  | .background_color => "background_color"
  | .background_inflate => "background_inflate"
  | .border_color => "border_color"
  | .border_inflate => "border_inflate"
  | .border_width => "border_width"
  | .font_background_color => "font_background_color"
  | .font_color => "font_color"
  | .font_name => "font_name"
  | .font_size => "font_size"
  | .margin => "margin"
  | .padding => "padding"
  | .readonly_color => "readonly_color"
  | .readonly_selected_color => "readonly_selected_color"
  | .selection_color => "selection_color"
  | .selection_effect => "selection_effect"
  | .shadow => "shadow"
  | .shadow_color => "shadow_color"
  | .shadow_position => "shadow_position"
  | .shadow_offset => "shadow_offset"

/-- The theme default used by `_filter_widget_attributes` for each style key. -/
def Theme.styleDefault (thm : Theme) : StyleKey → PyVal
  | .align => thm.widget_alignment
  | .background_color => thm.widget_background_color
  | .background_inflate => thm.widget_background_inflate
  | .border_color => thm.widget_border_color
  | .border_inflate => thm.widget_border_inflate
  | .border_width => thm.widget_border_width
  | .font_background_color => thm.widget_font_background_color
  | .font_color => thm.widget_font_color
  | .font_name => thm.widget_font
  | .font_size => thm.widget_font_size
  | .margin => thm.widget_margin
  | .padding => thm.widget_padding
  | .readonly_color => thm.readonly_color
  | .readonly_selected_color => thm.readonly_selected_color
  | .selection_color => thm.selection_color
  | .selection_effect => thm.widget_selection_effect
  | .shadow => thm.widget_shadow
  | .shadow_color => thm.widget_shadow_color
  | .shadow_position => thm.widget_shadow_position
  | .shadow_offset => thm.widget_shadow_offset

/-- The bundle value stored under each style key. -/
def Attributes.get (a : Attributes) : StyleKey → PyVal
  | .align => a.align
  | .background_color => a.background_color
  | .background_inflate => a.background_inflate
  | .border_color => a.border_color
  | .border_inflate => a.border_inflate
  | .border_width => a.border_width
  | .font_background_color => a.font_background_color
  | .font_color => a.font_color
  | .font_name => a.font_name
  | .font_size => a.font_size
  | .margin => a.margin
  | .padding => a.padding
  | .readonly_color => a.readonly_color
  | .readonly_selected_color => a.readonly_selected_color
  | .selection_color => a.selection_color
  | .selection_effect => a.selection_effect
  | .shadow => a.shadow
  | .shadow_color => a.shadow_color
  | .shadow_position => a.shadow_position
  | .shadow_offset => a.shadow_offset

/-- Widget kinds constructed by the factory methods under study. -/
inductive WidgetKind where
  | buttonW (toMenu : Bool)
  | labelW
  | imageW
  | textInputW (password : Bool) (defaultVal : PyVal)
  | vmarginW
  | noneW
deriving DecidableEq, Repr

/-- A widget as far as this module observes it: identity, title, kind,
selectability, owning-menu back-reference, selected flag, the applied style
bundle and the `onselect` callback reference. -/
structure Widget where
  id : String
  title : String
  kind : WidgetKind
  is_selectable : Bool
  menu : Option Nat := Option.none
  selected : Bool := false
  attrs : Option Attributes := Option.none
  onselect : PyVal := PyVal.none
deriving DecidableEq, Repr

/-- The mutable container (`Menu`) state touched by the widget manager:
identity, ordered widget list, selection index (`-1` = no selection),
insertion counter and the list of submenu identities. -/
structure MenuState where
  id : Nat
  widgets : List Widget
  index : Int
  added_widgets : Nat
  submenus : List Nat
deriving DecidableEq, Repr

/-- Modelled from the spec: `Menu._check_id_duplicated` (`menu.py` is not part
of the sources under study).  "Widget IDs are unique within one container":
the check fails when the id is already carried by a widget of the container. -/
def hasWidgetId (st : MenuState) (i : String) : Bool :=
  st.widgets.any (fun w => w.id == i)

/-- `WidgetManager._configure_widget`: asserts the widget has no menu yet,
sets the menu back-reference, runs the duplicate-id check and applies the
resolved bundle.  (The per-field widget setters live outside this module;
following the spec's WidgetBinder contract they apply every bundle field,
modelled by storing the bundle on the widget.) -/
def configureWidget (st : MenuState) (w : Widget) (a : Attributes) :
    Except String Widget :=
  if w.menu.isSome then .error "widget cannot have an instance of menu" else
  let w := { w with menu := some st.id }
  if hasWidgetId st w.id then .error ("widget id non unique " ++ w.id) else
  .ok { w with attrs := some a }

/-- `WidgetManager._append_widget`: asserts the widget belongs to this menu,
appends it, selects it when no selection exists and it is selectable
(recording its index), and bumps the insertion counter.  The python code
mutates the widget object in place (`widget.select()`), so the possibly
selected widget is returned next to the new container state. -/
def appendWidget (st : MenuState) (w : Widget) :
    Except String (MenuState × Widget) :=
  if !(w.menu == some st.id) then
    .error "widget cannot have a different instance of menu" else
  let takeSelection := st.index < 0 && w.is_selectable
  let w := if takeSelection then { w with selected := true } else w
  let widgets := st.widgets ++ [w]
  let index := if takeSelection then (widgets.length : Int) - 1 else st.index
  .ok ({ st with widgets := widgets, index := index,
                 added_widgets := st.added_widgets + 1 }, w)

/-- The direct submenu relation of the surrounding application, as a finite
graph over menu identities: `lookup m` lists the menus directly linked as
submenus of `m`. -/
def MenuGraph := List (Nat × List Nat)

/-- Direct submenus of a menu in the graph. -/
def directSubs (g : MenuGraph) (m : Nat) : List Nat :=
  match List.lookup m g with
  | some l => l
  | Option.none => []

/-- Modelled from the spec: `Menu.in_submenu(menu, recursive=True)` (`menu.py`
is not part of the sources under study).  "The target (transitively) contains
the container as a submenu": reachability through submenu edges, with fuel
bounding the traversal depth. -/
def inSubmenuFuel (g : MenuGraph) : Nat → Nat → Nat → Bool
  | 0, _, _ => false
  | fuel + 1, target, m =>
      (directSubs g target).contains m ||
      (directSubs g target).any (fun s => inSubmenuFuel g fuel s m)

/-- `target.in_submenu(m, recursive=True)`: is `m` transitively contained in
the submenu structure below `target`? -/
def inSubmenu (g : MenuGraph) (target m : Nat) : Bool :=
  inSubmenuFuel g (g.length + 1) target m

/-- The `action` argument of `WidgetManager.button`: a Menu (by identity), a
`pygame_menu.events.MenuAction`, `None`, a callable, or an invalid value. -/
inductive BAction where
  | menu (target : Nat)
  | back
  | close
  | exitEv
  | noneEv
  | reset
  | pygameQuit
  | pygameWindowClose
  | callable (f : Nat)
  | pyNone
  | invalid
deriving DecidableEq, Repr

/-- The error message raised (after the non-fatal advisory warning) when a
non-forwarding factory finds leftover kwargs. -/
def invalidKwargMsg (k : String) : String :=
  "widget addition optional parameter kwargs." ++ k ++ " is not valid"

/-- The error message raised by `button` on a recursive submenu link.  (The
source interpolates the target menu's title via `get_title`, which lives
outside this module; the modelled message is the constant part.) -/
def recursiveMenuMsg : String :=
  "Menu is already on submenu structure, recursive menus lead to unexpected behaviours"

/-- The action-normalization prologue of `WidgetManager.button`: the
`PYGAME_QUIT` / `PYGAME_WINDOWCLOSE` events become `EXIT`, and `None` becomes
the `NONE` event. -/
def normalizeAction (a : BAction) : BAction :=
  if a == BAction.pygameQuit || a == BAction.pygameWindowClose then BAction.exitEv
  else if a == BAction.pyNone then BAction.noneEv else a

/-- `WidgetManager.button`: pops `back_count` / `button_id` / `accept_kwargs` /
`onselect`, resolves the style bundle, normalizes the action, runs the
submenu-cycle check for Menu targets (appending the target to the submenu
list when it passes), builds the `Button`, runs the leftover-kwargs check
unless `accept_kwargs`, configures, registers and returns the widget.
In-place mutation plus exceptions is modelled by returning the final
container state next to the `Except` result. -/
def button (g : MenuGraph) (thm : Theme) (st : MenuState) (title : String)
    (action : BAction) (kw : Kwargs) : MenuState × Except String Widget :=
  let total_back := popv kw "back_count" (PyVal.int 1)
  let kw := kw.eraseKey "back_count"
  if !total_back.isIntGe 1 then (st, .error "back_count must be an int >= 1") else
  let button_id := popv kw "button_id" (PyVal.str "")
  let kw := kw.eraseKey "button_id"
  match button_id with
  | PyVal.str button_id =>
    let accept_kwargs := popv kw "accept_kwargs" (PyVal.bool false)
    let kw := kw.eraseKey "accept_kwargs"
    match accept_kwargs with
    | PyVal.bool accept_kwargs =>
      let onselect := popv kw "onselect" PyVal.none
      let kw := kw.eraseKey "onselect"
      match filterWidgetAttributes thm kw with
      | .error e => (st, .error e)
      | .ok (attributes, kw) =>
        -- change action if certain events
        let action := normalizeAction action
        match action with
        | BAction.invalid =>
            (st, .error "action must be a Menu, a MenuAction (event), a function (callable), or None")
        | _ =>
          -- Menu target: cycle check, then record the submenu link
          let cycle := match action with
            | BAction.menu t => t == st.id || inSubmenu g t st.id
            | _ => false
          if cycle then (st, .error recursiveMenuMsg) else
          let st := match action with
            | BAction.menu t => { st with submenus := st.submenus ++ [t] }
            | _ => st
          let widget : Widget :=
            { id := button_id, title := title,
              kind := WidgetKind.buttonW (match action with
                | BAction.menu _ => true
                | _ => false),
              is_selectable := true }
          if !accept_kwargs && !(kw.isEmpty) then
            -- warn (non-fatal advisory) and re-raise the ValueError
            match checkKwargs kw with
            | .error e => (st, .error e)
            | .ok _ => (st, .error "unreachable")
          else
          match configureWidget st widget attributes with
          | .error e => (st, .error e)
          | .ok widget =>
            let widget := { widget with onselect := onselect }
            match appendWidget st widget with
            | .error e => (st, .error e)
            | .ok (st2, widget) => (st2, .ok widget)
    | _ => (st, .error "accept_kwargs must be bool")
  | _ => (st, .error "id must be a string")

/-- The font/shadow keys that `WidgetManager.image` discards before
resolution, since images carry no text. -/
def imageDiscardedKeys : List String :=
  ["font_background_color", "font_color", "font_name", "font_size",
   "shadow", "shadow_color", "shadow_position", "shadow_offset"]

/-- `WidgetManager.image`: discards the font/shadow keys, resolves the style
bundle, builds the `Image` widget, runs the leftover-kwargs check, configures
and registers. -/
def image (thm : Theme) (st : MenuState) (image_id : String)
    (onselect : PyVal) (selectable : Bool) (kw : Kwargs) :
    MenuState × Except String Widget :=
  let kw := imageDiscardedKeys.foldl Kwargs.eraseKey kw
  match filterWidgetAttributes thm kw with
  | .error e => (st, .error e)
  | .ok (attributes, kw) =>
    let widget : Widget :=
      { id := image_id, title := "", kind := WidgetKind.imageW,
        is_selectable := selectable, onselect := onselect }
    match checkKwargs kw with
    | .error e => (st, .error e)
    | .ok _ =>
      match configureWidget st widget attributes with
      | .error e => (st, .error e)
      | .ok widget =>
        match appendWidget st widget with
        | .error e => (st, .error e)
        | .ok (st2, widget) => (st2, .ok widget)

/-- `WidgetManager.label`, fuelled for the newline recursion (each recursive
call works on a split line, which contains no newline character, so fuel 2
suffices; see `label`).  `us` is the stream of identifiers produced by
successive `uuid4()` calls, threaded as state.  The two branches that depend
on the excluded rendering engine (`max_char = -1` width probing against a
throwaway widget, and the `textwrap` overflow split) are outside the modelled
fragment and return a marker error; no theorem below exercises them. -/
def labelFuel (thm : Theme) : Nat → MenuState → List String → String → String →
    Int → Bool → PyVal → Kwargs →
    (MenuState × List String) × Except String (List Widget)
  | 0, st, us, _, _, _, _, _, _ => ((st, us), .error "recursion fuel exhausted")
  | fuel + 1, st, us, title, label_id0, max_char, selectable, onselect, kw =>
    if !(-1 ≤ max_char) then ((st, us), .error "max_char must be >= -1") else
    -- if len(label_id) == 0: label_id = str(uuid4())
    let useUuid := label_id0.length = 0
    let label_id := if useUuid then us.headD "" else label_id0
    let us := if useUuid then us.tail else us
    if title.data.contains (Char.ofNat 10) then
      -- newline detected: split and build one label per line, deriving ids
      let lines := (title.data.splitOn (Char.ofNat 10)).map (fun l => String.mk l)
      lines.foldl
        (fun acc t =>
          match acc with
          | ((st, us), Except.error e) => ((st, us), Except.error e)
          | ((st, us), Except.ok ws) =>
            match labelFuel thm fuel st us t
                (label_id ++ "+" ++ toString (ws.length + 1))
                max_char selectable onselect kw with
            | ((st2, us2), Except.error e) => ((st2, us2), Except.error e)
            | ((st2, us2), Except.ok ws2) => ((st2, us2), Except.ok (ws ++ ws2)))
        ((st, us), Except.ok [])
    else
    if max_char < 0 then
      ((st, us), .error "outside modelled fragment: wrap-to-width probe (rendering engine)")
    else
    if (title.length : Int) ≤ max_char || max_char == 0 then
      match filterWidgetAttributes thm kw with
      | .error e => ((st, us), .error e)
      | .ok (attributes, kw) =>
        let widget : Widget :=
          { id := label_id, title := title, kind := WidgetKind.labelW,
            is_selectable := selectable, onselect := onselect }
        match checkKwargs kw with
        | .error e => ((st, us), .error e)
        | .ok _ =>
          match configureWidget st widget attributes with
          | .error e => ((st, us), .error e)
          | .ok widget =>
            match appendWidget st widget with
            | .error e => ((st, us), .error e)
            | .ok (st2, widget) => ((st2, us), .ok [widget])
    else
      if hasWidgetId st label_id then
        ((st, us), .error ("widget id non unique " ++ label_id))
      else
        ((st, us), .error "outside modelled fragment: textwrap overflow split")

/-- `WidgetManager.label`.  Fuel 2 covers every execution of the modelled
fragment: the only recursion is the newline split, whose pieces contain no
newline. -/
def label (thm : Theme) (st : MenuState) (us : List String) (title : String)
    (label_id : String) (max_char : Int) (selectable : Bool) (onselect : PyVal)
    (kw : Kwargs) : (MenuState × List String) × Except String (List Widget) :=
  labelFuel thm 2 st us title label_id max_char selectable onselect kw

/-- `WidgetManager.text_input`, restricted to the parameters the claims
touch (the remaining keyword parameters are forwarded opaquely to the
`TextInput` constructor, which lives outside this module).  Asserts the
default's type, resolves the style bundle, pops `input_underline_vmargin`,
rejects a password together with a non-empty default, then constructs,
configures, sets the default value and registers. -/
def textInput (thm : Theme) (st : MenuState) (title : String)
    (defaultVal : PyVal) (password : Bool) (textinput_id : String)
    (onselect : PyVal) (kw : Kwargs) : MenuState × Except String Widget :=
  if !(defaultVal.isStr || defaultVal.isInt || defaultVal.isFloat) then
    (st, .error "default must be str, int or float") else
  match filterWidgetAttributes thm kw with
  | .error e => (st, .error e)
  | .ok (attributes, kw) =>
    let _input_underline_vmargin := popv kw "input_underline_vmargin" (PyVal.int 0)
    let _kw := kw.eraseKey "input_underline_vmargin"
    -- if password is active no default value should exist
    if password && !(defaultVal == PyVal.str "") then
      (st, .error "default value must be empty if the input is a password") else
    let widget : Widget :=
      { id := textinput_id, title := title,
        kind := WidgetKind.textInputW password defaultVal,
        is_selectable := true, onselect := onselect }
    match configureWidget st widget attributes with
    | .error e => (st, .error e)
    | .ok widget =>
      match appendWidget st widget with
      | .error e => (st, .error e)
      | .ok (st2, widget) => (st2, .ok widget)

/-- A concrete well-formed theme, in the shape of the library's default
theme, used by concrete counterexamples and witnesses. -/
def defaultTheme : Theme where
  widget_alignment := .str "align-left"
  widget_background_color := .none
  widget_background_inflate := .tuple [.aint 0, .aint 0]
  widget_border_color := .tuple [.aint 0, .aint 0, .aint 0]
  widget_border_inflate := .tuple [.aint 0, .aint 0]
  widget_border_width := .int 0
  widget_font_antialias := true
  widget_font_background_color := .none
  widget_font_background_color_from_menu := false
  background_color := .tuple [.aint 40, .aint 40, .aint 40]
  widget_font_color := .tuple [.aint 70, .aint 70, .aint 70]
  widget_font := .str "open-sans"
  widget_font_size := .int 30
  widget_margin := .tuple [.aint 0, .aint 10]
  widget_padding := .int 4
  readonly_color := .tuple [.aint 120, .aint 120, .aint 120]
  readonly_selected_color := .tuple [.aint 190, .aint 190, .aint 190]
  selection_color := .tuple [.aint 255, .aint 255, .aint 255]
  widget_selection_effect := .sel 1
  widget_shadow := .bool false
  widget_shadow_color := .tuple [.aint 0, .aint 0, .aint 0]
  widget_shadow_position := .str "position-northwest"
  widget_shadow_offset := .int 2

/-- The bundle `_filter_widget_attributes` produces from `defaultTheme` and an
empty kwargs mapping. -/
def defaultAttributes : Attributes where
  align := .str "align-left"
  background_color := .none
  background_inflate := .tuple [.aint 0, .aint 0]
  border_color := .tuple [.aint 0, .aint 0, .aint 0]
  border_inflate := .tuple [.aint 0, .aint 0]
  border_width := .int 0
  font_antialias := true
  font_background_color := .none
  font_color := .tuple [.aint 70, .aint 70, .aint 70]
  font_name := .str "open-sans"
  font_size := .int 30
  margin := .tuple [.aint 0, .aint 10]
  padding := .int 4
  readonly_color := .tuple [.aint 120, .aint 120, .aint 120]
  readonly_selected_color := .tuple [.aint 190, .aint 190, .aint 190]
  selection_color := .tuple [.aint 255, .aint 255, .aint 255]
  selection_effect := .sel 1
  shadow := .bool false
  shadow_color := .tuple [.aint 0, .aint 0, .aint 0]
  shadow_position := .str "position-northwest"
  shadow_offset := .int 2

deriving instance DecidableEq for Except

/-! ### Lemmas about the kwargs operations -/

theorem kwLookup_eraseKey_ne (kw : Kwargs) (k' k : String) (h : ¬ k' = k) :
    kwLookup (Kwargs.eraseKey kw k') k = kwLookup kw k := by
  induction kw with
  | nil => rfl
  | cons p t ih =>
      obtain ⟨k0, v0⟩ := p
      by_cases hk : k0 = k'
      · subst hk
        have hne : (k0 == k) = false := by
          simp only [beq_eq_false_iff_ne, ne_eq]
          exact fun hh => h (hh ▸ rfl)
        simp [Kwargs.eraseKey, kwLookup, hne, ih]
      · simp [Kwargs.eraseKey, kwLookup, hk, ih]

theorem kwLookup_eraseKey_self (kw : Kwargs) (k : String) :
    kwLookup (Kwargs.eraseKey kw k) k = Option.none := by
  induction kw with
  | nil => rfl
  | cons p t ih =>
      obtain ⟨k0, v0⟩ := p
      by_cases hk : k0 = k
      · simp [Kwargs.eraseKey, hk, ih]
      · simp [Kwargs.eraseKey, kwLookup, hk, ih]

theorem popv_eraseKey_ne (kw : Kwargs) (k' k : String) (d : PyVal) (h : ¬ k' = k) :
    popv (Kwargs.eraseKey kw k') k d = popv kw k d := by
  unfold popv
  rw [kwLookup_eraseKey_ne kw k' k h]

theorem hasKey_eraseKey_ne (kw : Kwargs) (k' k : String) (h : ¬ k' = k) :
    Kwargs.hasKey (Kwargs.eraseKey kw k') k = Kwargs.hasKey kw k := by
  unfold Kwargs.hasKey
  rw [kwLookup_eraseKey_ne kw k' k h]

theorem hasKey_eraseKey_self (kw : Kwargs) (k : String) :
    Kwargs.hasKey (Kwargs.eraseKey kw k) k = false := by
  unfold Kwargs.hasKey
  rw [kwLookup_eraseKey_self]
  rfl

theorem need_ok_elim {c : Bool} {m : String} {α : Type} {f : Unit → Except String α} {r : α}
    (h : (need c m).bind f = Except.ok r) : c = true ∧ f () = Except.ok r := by
  cases c with
  | true => exact ⟨rfl, h⟩
  | false => exact absurd h (by simp [need, Except.bind])

/-! ### Functional characterization of `_filter_widget_attributes` on success -/

/-- The value the resolver stores for `font_background_color`: the popped
value, except that a resolved `None` is replaced by the theme's (tuple) menu
background color when the derive-from-menu flag is set and the widget
background is not a flat color. -/
def resolvedFontBackground (thm : Theme) (kw : Kwargs) : PyVal :=
  if (popv kw "font_background_color" thm.widget_font_background_color == PyVal.none)
      && thm.widget_font_background_color_from_menu
      && !(bgIsColor (popv kw "background_color" thm.widget_background_color))
      && thm.background_color.isTuple
  then thm.background_color
  else popv kw "font_background_color" thm.widget_font_background_color

/-- The value the resolver stores for `selection_effect`: a resolved `None`
is replaced by a fresh `NoneSelection()`. -/
def resolvedSelectionEffect (thm : Theme) (kw : Kwargs) : PyVal :=
  if popv kw "selection_effect" thm.widget_selection_effect == PyVal.none
  then PyVal.noneSel
  else popv kw "selection_effect" thm.widget_selection_effect

/-- The style-key names, in the order `_filter_widget_attributes` pops them. -/
def styleKeyNames : List String :=
  ["align", "background_color", "background_inflate", "border_color", "border_inflate",
   "border_width", "font_background_color", "font_color", "font_name", "font_size",
   "margin", "padding", "readonly_color", "readonly_selected_color", "selection_color",
   "selection_effect", "shadow", "shadow_color", "shadow_position", "shadow_offset"]

/-- The caller mapping left over after the resolver popped every style key. -/
def consumeStyleKeys (kw : Kwargs) : Kwargs :=
  styleKeyNames.foldl Kwargs.eraseKey kw

/-- Derived characterization of the bundle a successful
`_filter_widget_attributes` run returns: each field is the popped value (or
theme default), with the two special cases for `font_background_color` and
`selection_effect` and the `str()` coercion of `font_name`. -/
def resolvedAttributes (thm : Theme) (kw : Kwargs) : Attributes where
  align := popv kw "align" thm.widget_alignment
  background_color := popv kw "background_color" thm.widget_background_color
  background_inflate := popv kw "background_inflate" thm.widget_background_inflate
  border_color := popv kw "border_color" thm.widget_border_color
  border_inflate := popv kw "border_inflate" thm.widget_border_inflate
  border_width := popv kw "border_width" thm.widget_border_width
  font_antialias := thm.widget_font_antialias
  font_background_color := resolvedFontBackground thm kw
  font_color := popv kw "font_color" thm.widget_font_color
  font_name := (popv kw "font_name" thm.widget_font).pyStr
  font_size := popv kw "font_size" thm.widget_font_size
  margin := popv kw "margin" thm.widget_margin
  padding := popv kw "padding" thm.widget_padding
  readonly_color := popv kw "readonly_color" thm.readonly_color
  readonly_selected_color := popv kw "readonly_selected_color" thm.readonly_selected_color
  selection_color := popv kw "selection_color" thm.selection_color
  selection_effect := resolvedSelectionEffect thm kw
  shadow := popv kw "shadow" thm.widget_shadow
  shadow_color := popv kw "shadow_color" thm.widget_shadow_color
  shadow_position := popv kw "shadow_position" thm.widget_shadow_position
  shadow_offset := popv kw "shadow_offset" thm.widget_shadow_offset

/-- The conjunction of every per-key validation the resolver enforces, as
observed on the returned bundle. -/
def attributesValid (a : Attributes) : Bool :=
  a.align.isStr && bgValid a.background_color && isVector2 a.background_inflate &&
  tupleAllNonneg a.background_inflate && isColor a.border_color &&
  isVector2 a.border_inflate && tupleAllIntNonneg a.border_inflate &&
  a.border_width.isIntGe 0 && isColor a.font_color && a.font_size.isIntGe 1 &&
  a.margin.isTuple && (a.margin.tupleLen == 2) &&
  (a.padding.isInt || a.padding.isFloat || a.padding.isTuple) &&
  isColor a.readonly_color && isColor a.readonly_selected_color &&
  isColor a.selection_color && a.selection_effect.isSelection && a.shadow.isBool &&
  isColor a.shadow_color && a.shadow_position.isStr && a.shadow_offset.isNum

set_option maxHeartbeats 4000000 in
/-- Inversion of a successful `_filter_widget_attributes` run: the bundle is
exactly `resolvedAttributes`, every consumed key is gone from the returned
mapping, and all per-key validations hold of the bundle. -/
theorem filter_ok_spec (thm : Theme) (kw : Kwargs) (a : Attributes) (rest : Kwargs)
    (h : filterWidgetAttributes thm kw = .ok (a, rest)) :
    a = resolvedAttributes thm kw ∧ rest = consumeStyleKeys kw ∧
      attributesValid a = true := by
  unfold filterWidgetAttributes at h
  obtain ⟨hc1, h⟩ := need_ok_elim h
  obtain ⟨hc2, h⟩ := need_ok_elim h
  obtain ⟨hc3, h⟩ := need_ok_elim h
  obtain ⟨hc4, h⟩ := need_ok_elim h
  obtain ⟨hc5, h⟩ := need_ok_elim h
  obtain ⟨hc6, h⟩ := need_ok_elim h
  obtain ⟨hc7, h⟩ := need_ok_elim h
  obtain ⟨hc8, h⟩ := need_ok_elim h
  obtain ⟨hc9, h⟩ := need_ok_elim h
  obtain ⟨hc10, h⟩ := need_ok_elim h
  obtain ⟨hc11, h⟩ := need_ok_elim h
  obtain ⟨hc12, h⟩ := need_ok_elim h
  obtain ⟨hc13, h⟩ := need_ok_elim h
  obtain ⟨hc14, h⟩ := need_ok_elim h
  obtain ⟨hc15, h⟩ := need_ok_elim h
  obtain ⟨hc16, h⟩ := need_ok_elim h
  obtain ⟨hc17, h⟩ := need_ok_elim h
  obtain ⟨hc18, h⟩ := need_ok_elim h
  obtain ⟨hc19, h⟩ := need_ok_elim h
  obtain ⟨hc20, h⟩ := need_ok_elim h
  obtain ⟨hc21, h⟩ := need_ok_elim h
  obtain ⟨hc22, h⟩ := need_ok_elim h
  obtain ⟨hc23, h⟩ := need_ok_elim h
  simp only [Except.ok.injEq, Prod.mk.injEq] at h
  obtain ⟨ha, hrest⟩ := h
  refine ⟨?_, ?_, ?_⟩
  · rw [← ha]
    simp only [resolvedAttributes, resolvedFontBackground, resolvedSelectionEffect,
      Attributes.mk.injEq, popv_eraseKey_ne, ne_eq, String.reduceEq, not_false_eq_true]
  · rw [← hrest]
    simp only [consumeStyleKeys, styleKeyNames, List.foldl]
  · rw [← ha]
    simp only [attributesValid]
    simp only [hc1, hc2, hc3, hc4, hc5, hc6, hc7, hc8, hc10, hc12, hc13, hc14, hc15,
      hc16, hc17, hc18, hc19, hc20, hc21, hc22, hc23, Bool.and_self]

theorem popv_not_hasKey (kw : Kwargs) (k : String) (d : PyVal)
    (h : Kwargs.hasKey kw k = false) : popv kw k d = d := by
  unfold Kwargs.hasKey at h
  unfold popv
  cases hx : kwLookup kw k with
  | none => rfl
  | some v => rw [hx] at h; exact absurd h (by simp)

theorem popv_lookup_some (kw : Kwargs) (k : String) (d : PyVal) (v : PyVal)
    (h : kwLookup kw k = some v) : popv kw k d = v := by
  unfold popv
  rw [h]

theorem eraseKey_not_hasKey (kw : Kwargs) (k : String)
    (h : Kwargs.hasKey kw k = false) : Kwargs.eraseKey kw k = kw := by
  induction kw with
  | nil => rfl
  | cons p t ih =>
      obtain ⟨k0, v0⟩ := p
      unfold Kwargs.hasKey kwLookup at h
      by_cases hk : (k0 == k) = true
      · rw [hk] at h
        exact absurd h (by simp)
      · rw [Bool.not_eq_true] at hk
        rw [hk] at h
        simp only [Bool.false_eq_true, if_false] at h
        simp [Kwargs.eraseKey, hk, ih h]

theorem consumeStyleKeys_not_hasKey (kw : Kwargs) (sk : StyleKey) :
    Kwargs.hasKey (consumeStyleKeys kw) sk.name = false := by
  cases sk <;>
    simp only [consumeStyleKeys, styleKeyNames, List.foldl, StyleKey.name,
      hasKey_eraseKey_ne, hasKey_eraseKey_self, ne_eq, String.reduceEq, not_false_eq_true]

theorem normalizeAction_menu (a : BAction) (t : Nat) :
    normalizeAction a = BAction.menu t ↔ a = BAction.menu t := by
  cases a <;> simp [normalizeAction]

/-! ### Claim theorems -/

/-- An empty container with no selection, used by concrete witnesses and
counterexamples. -/
def freshMenu : MenuState :=
  { id := 0, widgets := [], index := -1, added_widgets := 0, submenus := [] }

/-- A concrete selectable button widget already bound to `freshMenu`. -/
def wButton : Widget :=
  { id := "b", title := "t", kind := WidgetKind.buttonW false,
    is_selectable := true, menu := some 0 }

/-- C3: when the container's selection index is negative a selectable widget
appended by `_append_widget` becomes selected and the index becomes its
position; an unselectable widget leaves the negative index unchanged; and once
a selection exists (index ≥ 0) appending never changes the index. -/
theorem append_widget_selection (st : MenuState) (w : Widget) (st2 : MenuState)
    (w2 : Widget) (h : appendWidget st w = Except.ok (st2, w2)) :
    (st.index < 0 → w.is_selectable = true →
        st2.index = (st.widgets.length : Int) ∧ w2.selected = true ∧
        st2.widgets = st.widgets ++ [w2]) ∧
    (st.index < 0 → w.is_selectable = false → st2.index = st.index) ∧
    (0 ≤ st.index → st2.index = st.index) := by
  unfold appendWidget at h
  split at h
  · exact absurd h (by simp)
  · simp only [Except.ok.injEq, Prod.mk.injEq] at h
    obtain ⟨hst, hw⟩ := h
    refine ⟨?_, ?_, ?_⟩
    · intro hidx hsel
      rw [← hst, ← hw]
      simp [hidx, hsel, List.length_append]
    · intro hidx hsel
      rw [← hst]
      simp [hsel]
    · intro hidx
      rw [← hst]
      have hn : ¬ st.index < 0 := by omega
      simp [hn]

/-- The concrete widget after C3's append: selected. -/
def wButtonSel : Widget := { wButton with selected := true }

/-- The concrete container state after C3's append. -/
def freshAfterButton : MenuState :=
  { freshMenu with widgets := [wButtonSel], index := 0, added_widgets := 1 }

/-- Witness for C3: on the fresh container the appended selectable button is
selected and the index becomes 0. -/
theorem append_widget_selection_witness :
    freshAfterButton.index = (freshMenu.widgets.length : Int) ∧
      wButtonSel.selected = true ∧
      freshAfterButton.widgets = freshMenu.widgets ++ [wButtonSel] :=
  (append_widget_selection freshMenu wButton freshAfterButton wButtonSel
      (by decide)).1 (by decide) (by decide)

/-- C9: with `password=True`, `text_input` raises exactly the
non-empty-default error when the default value is not the empty string, and
otherwise constructs, configures and registers the widget. -/
theorem text_input_password_default (thm : Theme) (st : MenuState) (title : String)
    (defaultVal : PyVal) (tid : String) (ons : PyVal) (kw : Kwargs) (a : Attributes)
    (rest : Kwargs)
    (hd : (defaultVal.isStr || defaultVal.isInt || defaultVal.isFloat) = true)
    (hf : filterWidgetAttributes thm kw = Except.ok (a, rest))
    (hid : hasWidgetId st tid = false) :
    (defaultVal ≠ PyVal.str "" →
        textInput thm st title defaultVal true tid ons kw =
          (st, Except.error "default value must be empty if the input is a password")) ∧
    (defaultVal = PyVal.str "" →
        ∃ w st2, textInput thm st title defaultVal true tid ons kw =
            (st2, Except.ok w) ∧
          st2.widgets = st.widgets ++ [w] ∧ w.id = tid) := by
  constructor
  · intro hne
    have hb : (defaultVal == PyVal.str "") = false := by
      simp only [beq_eq_false_iff_ne, ne_eq]
      exact hne
    unfold textInput
    rw [hd, hf]
    simp [hb]
  · intro he
    subst he
    unfold textInput
    rw [hd, hf]
    simp only [Bool.not_true, Bool.false_eq_true, if_false, beq_self_eq_true,
      Bool.and_false, Bool.not_false]
    unfold configureWidget
    simp only [Option.isSome_some, Option.isSome_none, Bool.false_eq_true, if_false, hid]
    unfold appendWidget
    simp only [beq_self_eq_true, Bool.not_true, Bool.false_eq_true, if_false]
    refine ⟨_, _, rfl, ?_, ?_⟩
    · by_cases hp : st.index < 0 <;> simp [hp]
    · by_cases hp : st.index < 0 <;> simp [hp]

/-- Witness for C9: on the fresh container a password input with default
`"x"` raises, and with default `""` a widget is registered. -/
theorem text_input_password_default_witness :
    (textInput defaultTheme freshMenu "name" (PyVal.str "x") true "tid" PyVal.none [] =
        (freshMenu, Except.error "default value must be empty if the input is a password")) ∧
    (∃ w st2, textInput defaultTheme freshMenu "name" (PyVal.str "") true "tid" PyVal.none [] =
        (st2, Except.ok w) ∧ st2.widgets = freshMenu.widgets ++ [w] ∧ w.id = "tid") :=
  ⟨(text_input_password_default defaultTheme freshMenu "name" (PyVal.str "x") "tid"
      PyVal.none [] defaultAttributes [] (by decide) (by decide) (by decide)).1 (by decide),
   (text_input_password_default defaultTheme freshMenu "name" (PyVal.str "") "tid"
      PyVal.none [] defaultAttributes [] (by decide) (by decide) (by decide)).2 rfl⟩

/-- C1 (amended): for every recognized style key other than
`selection_effect` (where a `None` value is replaced by a fresh
`NoneSelection`), `font_background_color` (subject to the derive-from-menu
rule) and `font_name` (coerced through `str()`), omitting the key yields the
theme's default for that key in the bundle, and supplying it yields the
supplied value. -/
theorem style_key_default_and_override (thm : Theme) (kw : Kwargs) (a : Attributes)
    (rest : Kwargs) (sk : StyleKey)
    (h : filterWidgetAttributes thm kw = Except.ok (a, rest))
    (h1 : sk ≠ StyleKey.selection_effect) (h2 : sk ≠ StyleKey.font_background_color)
    (h3 : sk ≠ StyleKey.font_name) :
    (Kwargs.hasKey kw sk.name = false → a.get sk = thm.styleDefault sk) ∧
    (∀ v, kwLookup kw sk.name = some v → a.get sk = v) := by
  obtain ⟨ha, -, -⟩ := filter_ok_spec thm kw a rest h
  subst ha
  cases sk
  case selection_effect => exact absurd rfl h1
  case font_background_color => exact absurd rfl h2
  case font_name => exact absurd rfl h3
  all_goals
    exact ⟨fun hk => popv_not_hasKey _ _ _ hk, fun v hv => popv_lookup_some _ _ _ _ hv⟩

/-- A margin override supplied by the caller. -/
def suppliedMargin : PyVal := PyVal.tuple [PyAtom.aint 1, PyAtom.aint 2]

/-- The bundle resolved from `defaultTheme` with the margin override. -/
def attrsWithMargin : Attributes := { defaultAttributes with margin := suppliedMargin }

/-- The bundle resolved from `defaultTheme` when the caller supplies
`selection_effect=None`. -/
def attrsWithNoneSel : Attributes :=
  { defaultAttributes with selection_effect := PyVal.noneSel }

/-- C1 counterexample: supplying `selection_effect=None` yields a bundle
carrying a freshly built `NoneSelection`, which is neither the supplied value
`None` nor the theme's default selection effect. -/
theorem selection_effect_none_counterexample :
    filterWidgetAttributes defaultTheme [("selection_effect", PyVal.none)] =
      Except.ok (attrsWithNoneSel, []) ∧
    attrsWithNoneSel.get StyleKey.selection_effect ≠ PyVal.none ∧
    attrsWithNoneSel.get StyleKey.selection_effect ≠
      defaultTheme.styleDefault StyleKey.selection_effect := by
  decide

/-- Witness for C1: the supplied margin override lands in the bundle, and the
omitted font size resolves to the theme default. -/
theorem style_key_default_and_override_witness :
    attrsWithMargin.get StyleKey.margin = suppliedMargin ∧
    attrsWithMargin.get StyleKey.font_size = defaultTheme.styleDefault StyleKey.font_size :=
  ⟨(style_key_default_and_override defaultTheme [("margin", suppliedMargin)]
      attrsWithMargin [] StyleKey.margin (by decide) (by decide) (by decide) (by decide)).2
        suppliedMargin (by decide),
   (style_key_default_and_override defaultTheme [("margin", suppliedMargin)]
      attrsWithMargin [] StyleKey.font_size (by decide) (by decide) (by decide) (by decide)).1
        (by decide)⟩

/-- C6 (amended): the validations the resolver actually enforces, observed on
the returned bundle: both inflate vectors are 2-component and non-negative
(border inflate with integer components), the border width is a non-negative
int, the font size is a positive int, the margin is exactly a 2-element tuple
(its components, including negative ones, are not checked), the padding is an
int, float or tuple of any shape, and a background given as an image (or
`None`) is exempt from color validation. -/
theorem resolver_validation_as_implemented (thm : Theme) (kw : Kwargs)
    (a : Attributes) (rest : Kwargs)
    (h : filterWidgetAttributes thm kw = Except.ok (a, rest)) :
    attributesValid a = true :=
  (filter_ok_spec thm kw a rest h).2.2

/-- The bundle resolved from `defaultTheme` when the caller supplies the
negative margin `(-1, -1)`. -/
def attrsWithNegMargin : Attributes :=
  { defaultAttributes with margin := PyVal.tuple [PyAtom.aint (-1), PyAtom.aint (-1)] }

/-- C6 counterexample: the resolver accepts the negative margin `(-1, -1)`
without raising, contradicting the claim that non-negativity of margins is
validated; it also rejects the scalar margin `5`, contradicting the claimed
scalar shape. -/
theorem margin_validation_counterexample :
    filterWidgetAttributes defaultTheme
        [("margin", PyVal.tuple [PyAtom.aint (-1), PyAtom.aint (-1)])] =
      Except.ok (attrsWithNegMargin, []) ∧
    filterWidgetAttributes defaultTheme [("margin", PyVal.int 5)] =
      Except.error "margin must be a tuple" := by
  decide

/-- Witness for C6: the default theme's bundle satisfies every enforced
validation. -/
theorem resolver_validation_witness : attributesValid defaultAttributes = true :=
  resolver_validation_as_implemented defaultTheme [] defaultAttributes [] (by decide)

/-- C7 (amended): the bundle's font background color equals the menu theme's
background color exactly when the resolved value (the caller's value, else
the theme's widget default) is `None`, the derive-from-menu flag is set, the
widget's own background is not a flat color, and the theme's menu background
is a tuple; in every other case it is the resolved value itself. -/
theorem font_background_derivation (thm : Theme) (kw : Kwargs) (a : Attributes)
    (rest : Kwargs) (h : filterWidgetAttributes thm kw = Except.ok (a, rest)) :
    a.font_background_color = resolvedFontBackground thm kw := by
  obtain ⟨ha, -, -⟩ := filter_ok_spec thm kw a rest h
  subst ha
  rfl

/-- A theme whose widget font-background default is a color and whose
derive-from-menu flag is set. -/
def themeFontBg : Theme :=
  { defaultTheme with
    widget_font_background_color := PyVal.tuple [PyAtom.aint 1, PyAtom.aint 2, PyAtom.aint 3],
    widget_font_background_color_from_menu := true }

/-- The bundle `themeFontBg` resolves from an empty kwargs mapping. -/
def attrsFontBg : Attributes :=
  { defaultAttributes with
    font_background_color := PyVal.tuple [PyAtom.aint 1, PyAtom.aint 2, PyAtom.aint 3] }

/-- C7 counterexample: the caller gives no font-background-color, the theme
flag is set, and the widget background is not a flat color, yet the resulting
font background is the theme's widget default, not the menu background color
— the derivation only fires when the resolved value is `None`. -/
theorem font_background_derivation_counterexample :
    filterWidgetAttributes themeFontBg [] = Except.ok (attrsFontBg, []) ∧
    themeFontBg.widget_font_background_color_from_menu = true ∧
    bgIsColor attrsFontBg.background_color = false ∧
    attrsFontBg.font_background_color ≠ themeFontBg.background_color := by
  decide

/-- Witness for C7: the characterization evaluated on `themeFontBg`. -/
theorem font_background_derivation_witness :
    attrsFontBg.font_background_color = resolvedFontBackground themeFontBg [] :=
  font_background_derivation themeFontBg [] attrsFontBg [] (by decide)

set_option maxHeartbeats 1000000 in
/-- C2: every key consumed by the resolver is absent from the returned
mapping; `_check_kwargs` on a non-empty leftover mapping raises the error
naming its first key; and the non-forwarding factories — image, single-line
label, and button without `accept_kwargs` — raise exactly that error when a
key is left over after resolution. -/
theorem resolver_consumption_and_leftover_errors :
    (∀ (thm : Theme) (kw : Kwargs) (a : Attributes) (rest : Kwargs),
        filterWidgetAttributes thm kw = Except.ok (a, rest) →
        ∀ sk : StyleKey, Kwargs.hasKey rest sk.name = false)
    ∧ (∀ (k : String) (v : PyVal) (t : Kwargs),
        checkKwargs ((k, v) :: t) = Except.error (invalidKwargMsg k))
    ∧ (∀ (thm : Theme) (st : MenuState) (iid : String) (ons : PyVal) (sel : Bool)
        (kw : Kwargs) (a : Attributes) (k : String) (v : PyVal) (t : Kwargs),
        filterWidgetAttributes thm (imageDiscardedKeys.foldl Kwargs.eraseKey kw) =
          Except.ok (a, (k, v) :: t) →
        image thm st iid ons sel kw = (st, Except.error (invalidKwargMsg k)))
    ∧ (∀ (thm : Theme) (st : MenuState) (us : List String) (title lid : String)
        (sel : Bool) (ons : PyVal) (kw : Kwargs) (a : Attributes) (k : String)
        (v : PyVal) (t : Kwargs), lid.length ≠ 0 →
        Char.ofNat 10 ∉ title.data →
        filterWidgetAttributes thm kw = Except.ok (a, (k, v) :: t) →
        label thm st us title lid 0 sel ons kw = ((st, us), Except.error (invalidKwargMsg k)))
    ∧ (∀ (g : MenuGraph) (thm : Theme) (st : MenuState) (title : String) (kw : Kwargs)
        (a : Attributes) (k : String) (v : PyVal) (t : Kwargs),
        Kwargs.hasKey kw "back_count" = false → Kwargs.hasKey kw "button_id" = false →
        Kwargs.hasKey kw "accept_kwargs" = false → Kwargs.hasKey kw "onselect" = false →
        filterWidgetAttributes thm kw = Except.ok (a, (k, v) :: t) →
        button g thm st title BAction.noneEv kw = (st, Except.error (invalidKwargMsg k))) := by
  refine ⟨?_, ?_, ?_, ?_, ?_⟩
  · intro thm kw a rest h sk
    obtain ⟨-, hrest, -⟩ := filter_ok_spec thm kw a rest h
    rw [hrest]
    exact consumeStyleKeys_not_hasKey kw sk
  · intro k v t
    rfl
  · intro thm st iid ons sel kw a k v t hf
    unfold image
    simp [hf, checkKwargs, invalidKwargMsg]
  · intro thm st us title lid sel ons kw a k v t hlid htitle hf
    unfold label labelFuel
    simp [htitle, hlid, hf, checkKwargs, invalidKwargMsg]
  · intro g thm st title kw a k v t h1 h2 h3 h4 hf
    unfold button
    simp [popv_not_hasKey kw "back_count" (PyVal.int 1) h1,
      eraseKey_not_hasKey kw "back_count" h1,
      popv_not_hasKey kw "button_id" (PyVal.str "") h2,
      eraseKey_not_hasKey kw "button_id" h2,
      popv_not_hasKey kw "accept_kwargs" (PyVal.bool false) h3,
      eraseKey_not_hasKey kw "accept_kwargs" h3,
      eraseKey_not_hasKey kw "onselect" h4, hf,
      PyVal.isIntGe, normalizeAction, checkKwargs, invalidKwargMsg, List.isEmpty]

/-- Witness for C2: the image factory rejects a leftover key `foo`, naming
it. -/
theorem resolver_consumption_witness :
    image defaultTheme freshMenu "img" PyVal.none false [("foo", PyVal.int 1)] =
      (freshMenu, Except.error (invalidKwargMsg "foo")) :=
  resolver_consumption_and_leftover_errors.2.2.1 defaultTheme freshMenu "img" PyVal.none
    false [("foo", PyVal.int 1)] defaultAttributes "foo" (PyVal.int 1) [] (by decide)

set_option maxHeartbeats 1000000 in
/-- C5: a button whose action is a Menu raises the recursive-submenu error
exactly when the target is the container itself or the container is
transitively contained in the target's submenu structure; otherwise the
target is recorded in the container's submenu list and the button widget is
registered. -/
theorem button_menu_cycle_check (g : MenuGraph) (thm : Theme) (st : MenuState)
    (title : String) (tgt : Nat) (kw : Kwargs) (a : Attributes)
    (h1 : Kwargs.hasKey kw "back_count" = false) (h2 : Kwargs.hasKey kw "button_id" = false)
    (h3 : Kwargs.hasKey kw "accept_kwargs" = false) (h4 : Kwargs.hasKey kw "onselect" = false)
    (hf : filterWidgetAttributes thm kw = Except.ok (a, []))
    (hid : hasWidgetId st "" = false) :
    ((tgt = st.id ∨ inSubmenu g tgt st.id = true) →
        button g thm st title (BAction.menu tgt) kw = (st, Except.error recursiveMenuMsg)) ∧
    (¬(tgt = st.id ∨ inSubmenu g tgt st.id = true) →
        ∃ w st2, button g thm st title (BAction.menu tgt) kw = (st2, Except.ok w) ∧
          st2.submenus = st.submenus ++ [tgt] ∧
          st2.widgets = st.widgets ++ [w] ∧ w.kind = WidgetKind.buttonW true) := by
  constructor
  · intro hc
    have hcy : (tgt == st.id || inSubmenu g tgt st.id) = true := by
      rcases hc with h | h
      · simp [h]
      · simp [h]
    unfold button
    simp [popv_not_hasKey kw "back_count" (PyVal.int 1) h1,
      eraseKey_not_hasKey kw "back_count" h1,
      popv_not_hasKey kw "button_id" (PyVal.str "") h2,
      eraseKey_not_hasKey kw "button_id" h2,
      popv_not_hasKey kw "accept_kwargs" (PyVal.bool false) h3,
      eraseKey_not_hasKey kw "accept_kwargs" h3,
      eraseKey_not_hasKey kw "onselect" h4, hf,
      PyVal.isIntGe, normalizeAction, hcy]
  · intro hc
    push_neg at hc
    obtain ⟨hc1, hc2⟩ := hc
    have hcy : (tgt == st.id || inSubmenu g tgt st.id) = false := by
      simp only [Bool.or_eq_false_iff, beq_eq_false_iff_ne, ne_eq, Bool.not_eq_true]
      exact ⟨hc1, Bool.not_eq_true _ ▸ hc2⟩
    unfold button configureWidget appendWidget
    have hid2 : hasWidgetId { st with submenus := st.submenus ++ [tgt] } "" = false := hid
    simp [popv_not_hasKey kw "back_count" (PyVal.int 1) h1,
      eraseKey_not_hasKey kw "back_count" h1,
      popv_not_hasKey kw "button_id" (PyVal.str "") h2,
      eraseKey_not_hasKey kw "button_id" h2,
      popv_not_hasKey kw "accept_kwargs" (PyVal.bool false) h3,
      eraseKey_not_hasKey kw "accept_kwargs" h3,
      eraseKey_not_hasKey kw "onselect" h4, hf,
      PyVal.isIntGe, normalizeAction, hcy, hid2]
    refine ⟨_, _, ⟨rfl, rfl⟩, ?_, ?_, ?_⟩
    · by_cases hp : st.index < 0 <;> simp [hp]
    · by_cases hp : st.index < 0 <;> simp [hp]
    · by_cases hp : st.index < 0 <;> simp [hp]

/-- Witness for C5: pointing a button at the container itself raises; a fresh
target menu is recorded as a submenu and the button registered. -/
theorem button_menu_cycle_check_witness :
    (button [] defaultTheme freshMenu "b" (BAction.menu 0) [] =
        (freshMenu, Except.error recursiveMenuMsg)) ∧
    (∃ w st2, button [] defaultTheme freshMenu "b" (BAction.menu 1) [] =
        (st2, Except.ok w) ∧
      st2.submenus = freshMenu.submenus ++ [1] ∧
      st2.widgets = freshMenu.widgets ++ [w] ∧ w.kind = WidgetKind.buttonW true) :=
  ⟨(button_menu_cycle_check [] defaultTheme freshMenu "b" 0 [] defaultAttributes
      (by decide) (by decide) (by decide) (by decide) (by decide) (by decide)).1
      (Or.inl rfl),
   (button_menu_cycle_check [] defaultTheme freshMenu "b" 1 [] defaultAttributes
      (by decide) (by decide) (by decide) (by decide) (by decide) (by decide)).2
      (by decide)⟩

set_option maxHeartbeats 2000000 in
/-- C4 (amended): a failing `button()` call leaves the container's widget
list, selection index and insertion counter unchanged; the submenu list is
unchanged too, except that a call with a Menu target failing after the cycle
check leaves the target appended to the submenu list. -/
theorem button_error_state (g : MenuGraph) (thm : Theme) (st : MenuState) (title : String)
    (act : BAction) (kw : Kwargs) (st2 : MenuState) (e : String)
    (h : button g thm st title act kw = (st2, Except.error e)) :
    st2.widgets = st.widgets ∧ st2.index = st.index ∧
    st2.added_widgets = st.added_widgets ∧
    (st2.submenus = st.submenus ∨
      ∃ tgt, act = BAction.menu tgt ∧ st2.submenus = st.submenus ++ [tgt]) := by
  simp only [button] at h
  repeat' split at h
  all_goals injection h with h1 h2
  all_goals
    first
    | (subst h1; exact ⟨rfl, rfl, rfl, Or.inl rfl⟩)
    | exact Except.noConfusion h2
    | (subst h1; simp_all [normalizeAction_menu])

/-- The container after a Menu-target button call recorded target 1. -/
def menuWithSub1 : MenuState := { freshMenu with submenus := [1] }

/-- C4 counterexample: a `button()` call with a Menu target and a leftover
kwarg raises, yet the submenu list of the container has grown — the
container is not unchanged by the failed call. -/
theorem button_failure_mutates_container :
    button [] defaultTheme freshMenu "b" (BAction.menu 1) [("bogus", PyVal.int 1)] =
      (menuWithSub1, Except.error (invalidKwargMsg "bogus")) ∧
    menuWithSub1.submenus ≠ freshMenu.submenus := by
  decide

/-- Witness for C4: the failing call above left widgets, index and counter
unchanged, and its submenu mutation is the recorded Menu target. -/
theorem button_error_state_witness :
    menuWithSub1.widgets = freshMenu.widgets ∧ menuWithSub1.index = freshMenu.index ∧
    menuWithSub1.added_widgets = freshMenu.added_widgets ∧
    (menuWithSub1.submenus = freshMenu.submenus ∨
      ∃ tgt, BAction.menu 1 = BAction.menu tgt ∧
        menuWithSub1.submenus = freshMenu.submenus ++ [tgt]) :=
  button_error_state [] defaultTheme freshMenu "b" (BAction.menu 1)
    [("bogus", PyVal.int 1)] menuWithSub1 (invalidKwargMsg "bogus") (by decide)

/-- The Label widget as configured by the single-line path of `label`. -/
def mkLabelWidget (menuId : Nat) (lid title : String) (ons : PyVal) (a : Attributes) : Widget :=
  { id := lid, title := title, kind := WidgetKind.labelW, is_selectable := false,
    menu := some menuId, attrs := some a, onselect := ons }

/-- The container state after registering one unselectable widget. -/
def pushWidget (st : MenuState) (w : Widget) : MenuState :=
  { st with widgets := st.widgets ++ [w], added_widgets := st.added_widgets + 1 }

theorem label_single_nosel (thm : Theme) (st : MenuState) (us : List String)
    (title lid : String) (ons : PyVal) (a : Attributes)
    (hl : lid.length ≠ 0) (ht : Char.ofNat 10 ∉ title.data)
    (hf : filterWidgetAttributes thm [] = Except.ok (a, []))
    (hid : hasWidgetId st lid = false) :
    labelFuel thm 1 st us title lid 0 false ons [] =
      ((pushWidget st (mkLabelWidget st.id lid title ons a), us),
        Except.ok [mkLabelWidget st.id lid title ons a]) := by
  unfold labelFuel
  simp [hl, ht, hf, hid, checkKwargs, configureWidget, appendWidget, mkLabelWidget,
    pushWidget]

theorem append_ne_of_ne (X : String) {s t : String} (h : s ≠ t) : X ++ s ≠ X ++ t := by
  intro hh
  apply h
  have hd := congrArg String.data hh
  simp only [String.data_append] at hd
  exact String.ext (List.append_cancel_left hd)

theorem append_length_ne (X s : String) (hs : s.length ≠ 0) : (X ++ s).length ≠ 0 := by
  rw [String.length_append]
  omega

/-- C8: `label` on the title `"a\nb"` with non-empty base id `X` builds and
registers, in order, two Label widgets with ids `X+1` and `X+2`, holding
exactly the first and the second line's text. -/
theorem label_newline_split (thm : Theme) (st : MenuState) (us : List String)
    (X : String) (a : Attributes)
    (hX : X.length ≠ 0)
    (hf : filterWidgetAttributes thm [] = Except.ok (a, []))
    (h1 : hasWidgetId st (X ++ "+1") = false)
    (h2 : hasWidgetId st (X ++ "+2") = false) :
    label thm st us "a\nb" X 0 false PyVal.none [] =
      ((pushWidget (pushWidget st (mkLabelWidget st.id (X ++ "+1") "a" PyVal.none a))
          (mkLabelWidget st.id (X ++ "+2") "b" PyVal.none a), us),
        Except.ok [mkLabelWidget st.id (X ++ "+1") "a" PyVal.none a,
          mkLabelWidget st.id (X ++ "+2") "b" PyVal.none a]) := by
  have hnl : ("a\nb").data.contains (Char.ofNat 10) = true := by decide
  have e1 : X ++ "+" ++ toString (1 : Nat) = X ++ "+1" := by
    rw [String.append_assoc]
    exact congrArg (X ++ ·) (by decide)
  have e2 : X ++ "+" ++ toString (2 : Nat) = X ++ "+2" := by
    rw [String.append_assoc]
    exact congrArg (X ++ ·) (by decide)
  have hl1 : (X ++ "+1").length ≠ 0 := append_length_ne X "+1" (by decide)
  have hl2 : (X ++ "+2").length ≠ 0 := append_length_ne X "+2" (by decide)
  have ht1 : Char.ofNat 10 ∉ ("a" : String).data := by decide
  have ht2 : Char.ofNat 10 ∉ ("b" : String).data := by decide
  have hra : (['a'] : List Char).reverse = ['a'] := by decide
  have hrb : (['b'] : List Char).reverse = ['b'] := by decide
  have hsa : ({ data := ['a'] } : String) = "a" := rfl
  have hsb : ({ data := ['b'] } : String) = "b" := rfl
  have hw1 := label_single_nosel thm st us "a" (X ++ "+1") PyVal.none a hl1 ht1 hf h1
  have hid2 : hasWidgetId (pushWidget st (mkLabelWidget st.id (X ++ "+1") "a" PyVal.none a))
      (X ++ "+2") = false := by
    have hne : ((X ++ "+1") == (X ++ "+2")) = false := by
      simp only [beq_eq_false_iff_ne, ne_eq]
      exact append_ne_of_ne X (by decide)
    simp only [hasWidgetId, pushWidget, mkLabelWidget, List.any_append, List.any_cons,
      List.any_nil, hne, Bool.or_false] at h2 ⊢
    exact h2
  have hw2 := label_single_nosel thm
      (pushWidget st (mkLabelWidget st.id (X ++ "+1") "a" PyVal.none a)) us "b"
      (X ++ "+2") PyVal.none a hl2 ht2 hf hid2
  unfold label labelFuel
  simp only [hX, hnl, if_true, if_false, List.foldl, List.length_nil, List.length_cons,
    Nat.zero_add, Nat.reduceAdd, hra, hrb, hsa, hsb, e1, e2]
  rw [hw1]
  simp only [List.nil_append, List.length_cons, List.length_nil, Nat.zero_add,
    Nat.reduceAdd, e2]
  rw [hw2]
  simp [pushWidget]

theorem label_uuid_single (thm : Theme) (st : MenuState) (u : String) (us2 : List String)
    (title : String) (ons : PyVal) (a : Attributes)
    (ht : Char.ofNat 10 ∉ title.data)
    (hf : filterWidgetAttributes thm [] = Except.ok (a, []))
    (hid : hasWidgetId st u = false) :
    label thm st (u :: us2) title "" 0 false ons [] =
      ((pushWidget st (mkLabelWidget st.id u title ons a), us2),
        Except.ok [mkLabelWidget st.id u title ons a]) := by
  unfold label labelFuel
  simp [ht, hf, hid, checkKwargs, configureWidget, appendWidget, mkLabelWidget, pushWidget]

set_option maxHeartbeats 1000000 in
/-- C10: two `label` calls with an empty `label_id` draw fresh identifiers
from the uuid stream, so both registered Labels carry non-empty ids, the
second passes the duplicate-id check against the first, and the ids differ. -/
theorem label_uuid_fresh_ids (thm : Theme) (st : MenuState) (us : List String)
    (u1 u2 : String) (a : Attributes)
    (hu1 : u1.length ≠ 0) (hu2 : u2.length ≠ 0) (hne : u1 ≠ u2)
    (hf : filterWidgetAttributes thm [] = Except.ok (a, []))
    (hw1 : hasWidgetId st u1 = false) (hw2 : hasWidgetId st u2 = false) :
    label thm st (u1 :: u2 :: us) "hello" "" 0 false PyVal.none [] =
      ((pushWidget st (mkLabelWidget st.id u1 "hello" PyVal.none a), u2 :: us),
        Except.ok [mkLabelWidget st.id u1 "hello" PyVal.none a]) ∧
    label thm (pushWidget st (mkLabelWidget st.id u1 "hello" PyVal.none a)) (u2 :: us)
        "world" "" 0 false PyVal.none [] =
      ((pushWidget (pushWidget st (mkLabelWidget st.id u1 "hello" PyVal.none a))
          (mkLabelWidget st.id u2 "world" PyVal.none a), us),
        Except.ok [mkLabelWidget st.id u2 "world" PyVal.none a]) ∧
    u1 ≠ "" ∧ u2 ≠ "" ∧
    (mkLabelWidget st.id u1 "hello" PyVal.none a).id ≠
      (mkLabelWidget st.id u2 "world" PyVal.none a).id := by
  have hta : Char.ofNat 10 ∉ ("hello" : String).data := by decide
  have htb : Char.ofNat 10 ∉ ("world" : String).data := by decide
  have hne2 : (u1 == u2) = false := by
    simp only [beq_eq_false_iff_ne, ne_eq]
    exact hne
  have hid2 : hasWidgetId (pushWidget st (mkLabelWidget st.id u1 "hello" PyVal.none a))
      u2 = false := by
    simp only [hasWidgetId, pushWidget, mkLabelWidget, List.any_append, List.any_cons,
      List.any_nil, hne2, Bool.or_false] at hw2 ⊢
    exact hw2
  refine ⟨?_, ?_, ?_, ?_, ?_⟩
  · exact label_uuid_single thm st u1 (u2 :: us) "hello" PyVal.none a hta hf hw1
  · exact label_uuid_single thm (pushWidget st (mkLabelWidget st.id u1 "hello" PyVal.none a))
      u2 us "world" PyVal.none a htb hf hid2
  · intro hh
    exact hu1 (by rw [hh]; rfl)
  · intro hh
    exact hu2 (by rw [hh]; rfl)
  · simp only [mkLabelWidget]
    exact hne

/-- Witness for C8: the split of `"a\nb"` under the default theme on the
fresh container. -/
theorem label_newline_split_witness :
    label defaultTheme freshMenu [] "a\nb" "x" 0 false PyVal.none [] =
      ((pushWidget (pushWidget freshMenu
          (mkLabelWidget freshMenu.id ("x" ++ "+1") "a" PyVal.none defaultAttributes))
          (mkLabelWidget freshMenu.id ("x" ++ "+2") "b" PyVal.none defaultAttributes), []),
        Except.ok [mkLabelWidget freshMenu.id ("x" ++ "+1") "a" PyVal.none defaultAttributes,
          mkLabelWidget freshMenu.id ("x" ++ "+2") "b" PyVal.none defaultAttributes]) :=
  label_newline_split defaultTheme freshMenu [] "x" defaultAttributes (by decide)
    (by decide) (by decide) (by decide)

/-- Witness for C10: two uuid-labelled calls on the fresh container. -/
theorem label_uuid_fresh_ids_witness :
    (label defaultTheme freshMenu ["u-one", "u-two"] "hello" "" 0 false PyVal.none [] =
      ((pushWidget freshMenu
          (mkLabelWidget freshMenu.id "u-one" "hello" PyVal.none defaultAttributes),
        ["u-two"]),
        Except.ok [mkLabelWidget freshMenu.id "u-one" "hello" PyVal.none defaultAttributes])) ∧
    (label defaultTheme
        (pushWidget freshMenu
          (mkLabelWidget freshMenu.id "u-one" "hello" PyVal.none defaultAttributes))
        ["u-two"] "world" "" 0 false PyVal.none [] =
      ((pushWidget (pushWidget freshMenu
            (mkLabelWidget freshMenu.id "u-one" "hello" PyVal.none defaultAttributes))
          (mkLabelWidget freshMenu.id "u-two" "world" PyVal.none defaultAttributes), []),
        Except.ok [mkLabelWidget freshMenu.id "u-two" "world" PyVal.none defaultAttributes])) ∧
    "u-one" ≠ "" ∧ "u-two" ≠ "" ∧
    (mkLabelWidget freshMenu.id "u-one" "hello" PyVal.none defaultAttributes).id ≠
      (mkLabelWidget freshMenu.id "u-two" "world" PyVal.none defaultAttributes).id :=
  label_uuid_fresh_ids defaultTheme freshMenu [] "u-one" "u-two" defaultAttributes
    (by decide) (by decide) (by decide) (by decide) (by decide) (by decide)
